import Mathlib

/-!
Shallow embedding of the alert engine and indicator library of the
professional-stock-visualizer repository.

JavaScript numbers are modelled as rationals (`ℚ`) in the alert and
indicator code, whose claims only involve exact arithmetic, and as reals
(`ℝ`) in the risk-ratio code, which uses square roots.  JS `null` is
modelled with `Option`, JS division follows the Lean convention `x / 0 = 0`
at the one site where a division by zero can occur (the callers under
study agree with the JS result there), and timestamps are naturals passed
in explicitly where the source calls `Date.now()` / `new Date()`.
-/

namespace StockVisualizer

/-! ## Data model (src/types/alerts.ts) -/

inductive Priority where
  | low | medium | high | critical
deriving DecidableEq, Repr

inductive PriceAlertType where
  | price_above | price_below | percent_change | volume_spike
deriving DecidableEq, Repr

inductive ConditionOperator where
  | greater_than | less_than | equal_to
deriving DecidableEq, Repr

structure PriceCondition where
  value : ℚ
  operator : ConditionOperator
deriving DecidableEq, Repr

structure NotificationSettings where
  browser : Bool
  sound : Bool
deriving DecidableEq, Repr

structure PriceMetadata where
  currentPrice : ℚ
  triggerPrice : ℚ
  percentChange : ℚ
deriving DecidableEq, Repr

structure PriceAlert where
  id : String
  symbol : String
  type : PriceAlertType
  condition : PriceCondition
  isActive : Bool
  isTriggered : Bool
  createdAt : ℕ
  triggeredAt : Option ℕ
  notificationSettings : NotificationSettings
  message : String
  priority : Priority
  metadata : Option PriceMetadata
deriving DecidableEq, Repr

inductive TechnicalAlertType where
  | rsi_overbought | rsi_oversold | macd_crossover
  | support_break | resistance_break | volume_breakout
deriving DecidableEq, Repr

structure TechnicalParameters where
  rsiLevel : Option ℚ
  supportLevel : Option ℚ
  resistanceLevel : Option ℚ
  volumeMultiplier : Option ℚ
deriving DecidableEq, Repr

structure TechnicalAlert where
  id : String
  symbol : String
  type : TechnicalAlertType
  parameters : TechnicalParameters
  isActive : Bool
  isTriggered : Bool
  createdAt : ℕ
  triggeredAt : Option ℕ
  notificationSettings : NotificationSettings
  message : String
  priority : Priority
deriving DecidableEq, Repr

inductive NotificationCategory where
  | price | technical | news | system
deriving DecidableEq, Repr

structure AlertNotification where
  id : String
  alertId : String
  title : String
  message : String
  type : NotificationCategory
  priority : Priority
  timestamp : ℕ
  isRead : Bool
deriving DecidableEq, Repr

structure Settings where
  browserNotifications : Bool
  soundEnabled : Bool
  emailNotifications : Bool
  maxNotifications : ℕ
deriving DecidableEq, Repr

structure AlertState where
  priceAlerts : List PriceAlert
  technicalAlerts : List TechnicalAlert
  notifications : List AlertNotification
  settings : Settings
deriving DecidableEq, Repr

/-! ## Evaluator inputs (src/utils/alertTriggers.ts interfaces) -/

structure PriceData where
  symbol : String
  price : ℚ
  change : ℚ
  changePercent : ℚ
  volume : ℚ
  high : ℚ
  low : ℚ
  timestamp : ℕ
deriving DecidableEq, Repr

structure MacdSnapshot where
  macd : ℚ
  signal : ℚ
  histogram : ℚ
deriving DecidableEq, Repr

structure TechnicalData where
  rsi : Option ℚ
  macd : Option MacdSnapshot
  volume : Option ℚ
  averageVolume : Option ℚ
  supportLevel : Option ℚ
  resistanceLevel : Option ℚ
deriving DecidableEq, Repr

/-! ## Notification service (src/services/notificationService.ts)

The service's observable behaviour is its internal state (sound toggle,
audio availability, browser permission) plus the side effects it emits;
side effects are recorded as an explicit event list. -/

inductive Permission where
  | granted | denied | default_
deriving DecidableEq, Repr

structure NotifServiceState where
  soundEnabled : Bool
  audioAvailable : Bool
  permission : Permission
deriving DecidableEq, Repr

inductive SoundType where
  | info | warning | error | success | critical
deriving DecidableEq, Repr

inductive Effect where
  | browserNote (title : String)
  | sound (pattern : SoundType)
deriving DecidableEq, Repr

def showNotification (ns : NotifServiceState) (title : String) : List Effect :=
  if ns.permission ≠ Permission.granted then [] else [Effect.browserNote title]

def playAlertSound (ns : NotifServiceState) (t : SoundType) : List Effect :=
  if !ns.soundEnabled || !ns.audioAvailable then [] else [Effect.sound t]

def showPriceAlert (ns : NotifServiceState) (symbol : String) (above : Bool) :
    List Effect :=
  showNotification ns ((if above then "📈 " else "📉 ") ++ symbol ++ " Price Alert")
    ++ playAlertSound ns (if above then SoundType.success else SoundType.warning)

def showTechnicalAlert (ns : NotifServiceState) (symbol : String) (p : Priority) :
    List Effect :=
  showNotification ns ("📊 " ++ symbol ++ " Technical Alert")
    ++ playAlertSound ns (if p = Priority.high then SoundType.warning else SoundType.info)

/-! ## Dispatcher (src/utils/alertTriggers.ts, triggerPriceAlert / triggerTechnicalAlert) -/

def soundTypeForPriority : Priority → SoundType
  | Priority.critical => SoundType.critical
  | Priority.high => SoundType.warning
  | _ => SoundType.info

def triggerPriceAlert (a : PriceAlert) (pd : PriceData) (ns : NotifServiceState)
    (now : ℕ) : PriceAlert × List Effect :=
  let browserFx :=
    if a.notificationSettings.browser then
      match a.type with
      | PriceAlertType.price_above => showPriceAlert ns a.symbol true
      | PriceAlertType.price_below => showPriceAlert ns a.symbol false
      | _ => showNotification ns ("📈 " ++ a.symbol ++ " Alert")
    else []
  let soundFx :=
    if a.notificationSettings.sound then
      playAlertSound ns (soundTypeForPriority a.priority)
    else []
  ({ a with
      metadata := some { currentPrice := pd.price, triggerPrice := a.condition.value,
                         percentChange := pd.changePercent }
      isTriggered := true
      triggeredAt := some now },
   browserFx ++ soundFx)

def triggerTechnicalAlert (a : TechnicalAlert) (ns : NotifServiceState)
    (now : ℕ) : TechnicalAlert × List Effect :=
  let browserFx :=
    if a.notificationSettings.browser then showTechnicalAlert ns a.symbol a.priority
    else []
  let soundFx :=
    if a.notificationSettings.sound then
      playAlertSound ns (soundTypeForPriority a.priority)
    else []
  ({ a with isTriggered := true, triggeredAt := some now }, browserFx ++ soundFx)

/-! ## Evaluator (src/utils/alertTriggers.ts, checkPriceAlert / checkTechnicalAlert) -/

def checkPriceAlert (a : PriceAlert) (pd : PriceData) (ns : NotifServiceState)
    (now : ℕ) : Bool × PriceAlert × List Effect :=
  if !a.isActive || a.isTriggered then (false, a, [])
  else if a.symbol ≠ pd.symbol then (false, a, [])
  else
    let shouldTrigger : Bool :=
      match a.type with
      | PriceAlertType.price_above => decide (pd.price > a.condition.value)
      | PriceAlertType.price_below => decide (pd.price < a.condition.value)
      | PriceAlertType.percent_change =>
        match a.condition.operator with
        | ConditionOperator.greater_than => decide (|pd.changePercent| > a.condition.value)
        | _ => decide (|pd.changePercent| < a.condition.value)
      | PriceAlertType.volume_spike =>
        decide (pd.volume / (pd.volume / a.condition.value) ≥ a.condition.value)
    if shouldTrigger then
      let r := triggerPriceAlert a pd ns now
      (true, r.1, r.2)
    else (false, a, [])

def checkTechnicalAlert (a : TechnicalAlert) (td : TechnicalData)
    (ns : NotifServiceState) (now : ℕ) : Bool × TechnicalAlert × List Effect :=
  if !a.isActive || a.isTriggered then (false, a, [])
  else
    let shouldTrigger : Bool :=
      match a.type with
      | TechnicalAlertType.rsi_overbought =>
        decide (td.rsi.getD 50 > a.parameters.rsiLevel.getD 70)
      | TechnicalAlertType.rsi_oversold =>
        decide (td.rsi.getD 50 < a.parameters.rsiLevel.getD 30)
      | TechnicalAlertType.macd_crossover =>
        match td.macd with
        | some m => decide (m.macd > m.signal)
        | none => false
      | TechnicalAlertType.support_break => decide (td.supportLevel.getD 0 > 0)
      | TechnicalAlertType.resistance_break => decide (td.resistanceLevel.getD 0 > 0)
      | TechnicalAlertType.volume_breakout =>
        match td.volume, td.averageVolume with
        | some v, some av =>
          if v ≠ 0 ∧ av ≠ 0 then
            decide (v / av ≥ a.parameters.volumeMultiplier.getD 2)
          else false
        | _, _ => false
    if shouldTrigger then
      let r := triggerTechnicalAlert a ns now
      (true, r.1, r.2)
    else (false, a, [])

/-! ## Store operations (src/hooks/useAlerts.ts) -/

def addNotificationOnFire (s : AlertState) (n : AlertNotification) : AlertState :=
  { s with notifications := n :: s.notifications.take (s.settings.maxNotifications - 1) }

def testAlertAdd (s : AlertState) (n : AlertNotification) : AlertState :=
  { s with notifications := n :: s.notifications }

structure SettingsPatch where
  browserNotifications : Option Bool
  soundEnabled : Option Bool
  emailNotifications : Option Bool
  maxNotifications : Option ℕ
deriving DecidableEq, Repr

def updateSettings (s : AlertState) (ns : NotifServiceState) (p : SettingsPatch) :
    AlertState × NotifServiceState :=
  let merged : Settings :=
    { browserNotifications := p.browserNotifications.getD s.settings.browserNotifications
      soundEnabled := p.soundEnabled.getD s.settings.soundEnabled
      emailNotifications := p.emailNotifications.getD s.settings.emailNotifications
      maxNotifications := p.maxNotifications.getD s.settings.maxNotifications }
  let ns2 :=
    match p.soundEnabled with
    | some b => { ns with soundEnabled := b }
    | none => ns
  ({ s with settings := merged }, ns2)

def clearTriggeredAlerts (s : AlertState) : AlertState :=
  { s with
      priceAlerts := s.priceAlerts.filter (fun a => !a.isTriggered)
      technicalAlerts := s.technicalAlerts.filter (fun a => !a.isTriggered) }

def isVisualEffect : Effect → Bool
  | Effect.browserNote _ => true
  | _ => false

def isSoundEffect : Effect → Bool
  | Effect.sound _ => true
  | _ => false

def hasVisual (l : List Effect) : Bool := l.any isVisualEffect

def hasSound (l : List Effect) : Bool := l.any isSoundEffect

/-! ## Indicator library (src/utils/technicalIndicators.ts)

Sequences of `number | null` become `List (Option ℚ)`. -/

def calculateSMA (data : List ℚ) (period : ℕ) : List (Option ℚ) :=
  (List.range data.length).map (fun i =>
    if i < period - 1 then none
    else some (((data.drop (i + 1 - period)).take period).sum / (period : ℚ)))

def emaAt (data : List ℚ) (period : ℕ) : ℕ → Option ℚ
  | 0 => some (data.getD 0 0)
  | i + 1 =>
    if i + 1 < period - 1 then
      some ((data.take (i + 2)).sum / ((i + 2 : ℕ) : ℚ))
    else
      match emaAt data period i with
      | some prev =>
        some (data.getD (i + 1) 0 * (2 / ((period : ℚ) + 1))
              + prev * (1 - 2 / ((period : ℚ) + 1)))
      | none => none

def calculateEMA (data : List ℚ) (period : ℕ) : List (Option ℚ) :=
  (List.range data.length).map (emaAt data period)

def macdLine (data : List ℚ) (fastPeriod slowPeriod : ℕ) : List (Option ℚ) :=
  (List.range data.length).map (fun i =>
    match (calculateEMA data fastPeriod).getD i none,
          (calculateEMA data slowPeriod).getD i none with
    | some a, some b => some (a - b)
    | _, _ => none)

def signalLineOf (data : List ℚ) (fastPeriod slowPeriod signalPeriod : ℕ) :
    List (Option ℚ) :=
  calculateEMA ((macdLine data fastPeriod slowPeriod).filterMap id) signalPeriod

/-- JS `x || null` on a `number | null` value: `null` and `0` both collapse to
`null`. -/
def jsOrNull : Option ℚ → Option ℚ
  | none => none
  | some v => if v = 0 then none else some v

def alignedSignalAt (data : List ℚ) (fastPeriod slowPeriod signalPeriod i : ℕ) :
    Option ℚ :=
  match (macdLine data fastPeriod slowPeriod).getD i none with
  | none => none
  | some _ =>
    jsOrNull ((signalLineOf data fastPeriod slowPeriod signalPeriod).getD
      (((macdLine data fastPeriod slowPeriod).take i).filterMap id).length none)

structure MacdEntry where
  macd : Option ℚ
  signal : Option ℚ
  histogram : Option ℚ
deriving DecidableEq, Repr

def calculateMACD (data : List ℚ) (fastPeriod slowPeriod signalPeriod : ℕ) :
    List MacdEntry :=
  (List.range data.length).map (fun i =>
    let m := (macdLine data fastPeriod slowPeriod).getD i none
    let s := alignedSignalAt data fastPeriod slowPeriod signalPeriod i
    { macd := m
      signal := s
      histogram :=
        match m, s with
        | some mv, some sv => some (mv - sv)
        | _, _ => none })

/-- Modelled from the spec: the signal component the spec describes, the
EMA of the defined macd subsequence re-aligned to original indices, with
no falsy coercion.  Used to compare the source's aligned signal against
the spec's words. -/
def specSignalAt (data : List ℚ) (fastPeriod slowPeriod signalPeriod i : ℕ) :
    Option ℚ :=
  match (macdLine data fastPeriod slowPeriod).getD i none with
  | none => none
  | some _ =>
    (signalLineOf data fastPeriod slowPeriod signalPeriod).getD
      (((macdLine data fastPeriod slowPeriod).take i).filterMap id).length none

def emptyMacdEntry : MacdEntry := { macd := none, signal := none, histogram := none }

/-! ## Risk ratios (src/utils/quantAnalytics.ts)

These use `Math.sqrt`, so they are modelled over `ℝ`.  A JS number that may
be `Infinity` is modelled by `JsNumber`. -/

inductive JsNumber where
  | val : ℝ → JsNumber
  | posInf : JsNumber

noncomputable def jsMean (l : List ℝ) : ℝ :=
  if l.length = 0 then 0 else l.sum / (l.length : ℝ)

noncomputable def jsStdDev (l : List ℝ) : ℝ :=
  if l.length = 0 then 0
  else if l.length = 1 then 0
  else Real.sqrt ((l.map (fun v => (v - jsMean l) ^ 2)).sum / ((l.length : ℝ) - 1))

noncomputable def excessReturns (returns : List ℝ) (riskFreeRate : ℝ) : List ℝ :=
  returns.map (fun r => r - riskFreeRate / 252)

open Classical in
noncomputable def calculateSharpeRatio (returns : List ℝ) (riskFreeRate : ℝ) :
    JsNumber :=
  if returns.length = 0 then JsNumber.val 0
  else
    let ex := excessReturns returns riskFreeRate
    let m := jsMean ex
    let sd := jsStdDev ex
    if sd = 0 then (if 0 < m then JsNumber.posInf else JsNumber.val 0)
    else JsNumber.val ((m * Real.sqrt 252) / (sd * Real.sqrt 252))

open Classical in
noncomputable def negativeExcessReturns (returns : List ℝ) (riskFreeRate : ℝ) :
    List ℝ :=
  (excessReturns returns riskFreeRate).filter (fun r => decide (r < 0))

open Classical in
noncomputable def calculateSortinoRatio (returns : List ℝ) (riskFreeRate : ℝ) :
    JsNumber :=
  if returns.length = 0 then JsNumber.val 0
  else
    let ex := excessReturns returns riskFreeRate
    let m := jsMean ex
    let neg := negativeExcessReturns returns riskFreeRate
    if neg.length = 0 then (if 0 < m then JsNumber.posInf else JsNumber.val 0)
    else
      let dd := Real.sqrt ((neg.map (fun r => r * r)).sum / (neg.length : ℝ))
      if dd = 0 then (if 0 < m then JsNumber.posInf else JsNumber.val 0)
      else JsNumber.val ((m * Real.sqrt 252) / (dd * Real.sqrt 252))

/-- Boolean marker for the two price-level alert kinds, whose browser path
goes through `showPriceAlert` (which also plays a sound of its own). -/
def isPriceLevelType : PriceAlertType → Bool
  | PriceAlertType.price_above => true
  | PriceAlertType.price_below => true
  | _ => false

/-! ## Concrete sample data used by witnesses and counterexamples -/

def nsGranted : NotifServiceState :=
  { soundEnabled := true, audioAvailable := true, permission := Permission.granted }

def aboveAlert : PriceAlert :=
  { id := "price_1", symbol := "AAPL", type := PriceAlertType.price_above
    condition := { value := 150, operator := ConditionOperator.greater_than }
    isActive := true, isTriggered := false, createdAt := 0, triggeredAt := none
    notificationSettings := { browser := true, sound := true }
    message := "AAPL above 150", priority := Priority.medium, metadata := none }

def aboveTick : PriceData :=
  { symbol := "AAPL", price := 151, change := 1, changePercent := 1/2
    volume := 1000, high := 152, low := 149, timestamp := 5 }

def triggeredAboveAlert : PriceAlert :=
  { aboveAlert with isTriggered := true, triggeredAt := some 3 }

def triggeredTechAlert : TechnicalAlert :=
  { id := "tech_1", symbol := "AAPL", type := TechnicalAlertType.rsi_overbought
    parameters := { rsiLevel := some 70, supportLevel := none,
                    resistanceLevel := none, volumeMultiplier := none }
    isActive := true, isTriggered := true, createdAt := 0, triggeredAt := some 3
    notificationSettings := { browser := true, sound := true }
    message := "RSI overbought", priority := Priority.high }

def overboughtSnapshot : TechnicalData :=
  { rsi := some 80, macd := none, volume := some 1000, averageVolume := some 800
    supportLevel := none, resistanceLevel := none }

def volumeSpikeAlert : PriceAlert :=
  { id := "price_2", symbol := "AAPL", type := PriceAlertType.volume_spike
    condition := { value := 2, operator := ConditionOperator.greater_than }
    isActive := true, isTriggered := false, createdAt := 0, triggeredAt := none
    notificationSettings := { browser := false, sound := false }
    message := "AAPL volume spike", priority := Priority.medium, metadata := none }

def ordinaryVolumeTick : PriceData :=
  { symbol := "AAPL", price := 100, change := 0, changePercent := 0
    volume := 100, high := 101, low := 99, timestamp := 9 }

def pctChangeAlert : PriceAlert :=
  { id := "price_3", symbol := "AAPL", type := PriceAlertType.percent_change
    condition := { value := 3, operator := ConditionOperator.less_than }
    isActive := true, isTriggered := false, createdAt := 0, triggeredAt := none
    notificationSettings := { browser := false, sound := false }
    message := "AAPL quiet", priority := Priority.low, metadata := none }

def smallMoveTick : PriceData :=
  { symbol := "AAPL", price := 100, change := -1, changePercent := -1
    volume := 500, high := 101, low := 99, timestamp := 11 }

def sampleSettings : Settings :=
  { browserNotifications := true, soundEnabled := true
    emailNotifications := false, maxNotifications := 2 }

def sampleNotification (k : ℕ) : AlertNotification :=
  { id := toString k, alertId := "price_1", title := "t", message := "m"
    type := NotificationCategory.price, priority := Priority.low
    timestamp := k, isRead := false }

def twoNotifState : AlertState :=
  { priceAlerts := [], technicalAlerts := []
    notifications := [sampleNotification 2, sampleNotification 1]
    settings := sampleSettings }

def emptyNotifState : AlertState :=
  { priceAlerts := [], technicalAlerts := [], notifications := []
    settings := sampleSettings }

def browserOffPatch : SettingsPatch :=
  { browserNotifications := some false, soundEnabled := none
    emailNotifications := none, maxNotifications := none }

/-! ## Helper lemmas about the effect log -/

theorem hasVisual_nil : hasVisual [] = false := rfl

theorem hasSound_nil : hasSound [] = false := rfl

theorem hasVisual_append (l₁ l₂ : List Effect) :
    hasVisual (l₁ ++ l₂) = (hasVisual l₁ || hasVisual l₂) := by
  simp [hasVisual, List.any_append]

theorem hasSound_append (l₁ l₂ : List Effect) :
    hasSound (l₁ ++ l₂) = (hasSound l₁ || hasSound l₂) := by
  simp [hasSound, List.any_append]

theorem hasVisual_showNotification (ns : NotifServiceState) (t : String) :
    hasVisual (showNotification ns t) = decide (ns.permission = Permission.granted) := by
  unfold showNotification hasVisual
  split
  · next h => simp [decide_eq_false (by simpa using h)]
  · next h => simp_all [isVisualEffect]

theorem hasSound_showNotification (ns : NotifServiceState) (t : String) :
    hasSound (showNotification ns t) = false := by
  unfold showNotification hasSound
  split <;> simp [isSoundEffect]

theorem hasVisual_playAlertSound (ns : NotifServiceState) (t : SoundType) :
    hasVisual (playAlertSound ns t) = false := by
  unfold playAlertSound hasVisual
  split <;> simp [isVisualEffect]

theorem hasSound_playAlertSound (ns : NotifServiceState) (t : SoundType) :
    hasSound (playAlertSound ns t) = (ns.soundEnabled && ns.audioAvailable) := by
  unfold playAlertSound hasSound
  cases hs : ns.soundEnabled <;> cases ha : ns.audioAvailable <;>
    simp [isSoundEffect, hs, ha]

/-! ## Claim theorems -/

/-- Claim C1 (confirmed): once a price or technical rule's `triggered`
flag is true, evaluating it against any tick or technical snapshot
returns false, returns the rule unchanged (flag still true), and emits
no dispatcher effects. -/
theorem triggered_rules_are_latched (a : PriceAlert) (pd : PriceData)
    (ta : TechnicalAlert) (td : TechnicalData) (ns : NotifServiceState) (now : ℕ)
    (ha : a.isTriggered = true) (hta : ta.isTriggered = true) :
    checkPriceAlert a pd ns now = (false, a, [])
      ∧ checkTechnicalAlert ta td ns now = (false, ta, []) := by
  unfold checkPriceAlert checkTechnicalAlert
  simp [ha, hta]

/-- Witness for C1 at a concrete triggered price rule and a concrete
triggered technical rule. -/
theorem triggered_rules_are_latched_witness :
    triggeredAboveAlert.isTriggered = true
      ∧ triggeredTechAlert.isTriggered = true
      ∧ checkPriceAlert triggeredAboveAlert aboveTick nsGranted 9
          = (false, triggeredAboveAlert, [])
      ∧ checkTechnicalAlert triggeredTechAlert overboughtSnapshot nsGranted 9
          = (false, triggeredTechAlert, []) := by
  refine ⟨rfl, rfl, ?_, ?_⟩
  · exact (triggered_rules_are_latched triggeredAboveAlert aboveTick
      triggeredTechAlert overboughtSnapshot nsGranted 9 rfl rfl).1
  · exact (triggered_rules_are_latched triggeredAboveAlert aboveTick
      triggeredTechAlert overboughtSnapshot nsGranted 9 rfl rfl).2

/-- Claim C2 (code bug): an active, untriggered volume-spike rule with
multiplier threshold 2 fires on a tick whose volume (100) equals the
stipulated average volume (100), i.e. a 1x ratio that is below the
threshold; the source computes `volume / (volume / value)`, which never
consults any average volume and collapses to `value ≥ value`. -/
theorem volume_spike_fires_without_spike :
    (checkPriceAlert volumeSpikeAlert ordinaryVolumeTick nsGranted 9).1 = true
      ∧ ordinaryVolumeTick.volume / 100 < volumeSpikeAlert.condition.value := by
  constructor
  · norm_num [checkPriceAlert, volumeSpikeAlert, ordinaryVolumeTick]
  · norm_num [volumeSpikeAlert, ordinaryVolumeTick]

/-- Claim C10 (confirmed): for an active, untriggered percent-change rule
whose operator is `less_than` and a matching-symbol tick, evaluation
returns true iff the absolute percent change is strictly below the
threshold. -/
theorem percent_change_less_than_mode (a : PriceAlert) (pd : PriceData)
    (ns : NotifServiceState) (now : ℕ)
    (hact : a.isActive = true) (htrig : a.isTriggered = false)
    (hsym : a.symbol = pd.symbol)
    (hty : a.type = PriceAlertType.percent_change)
    (hop : a.condition.operator = ConditionOperator.less_than) :
    (checkPriceAlert a pd ns now).1 = true
      ↔ |pd.changePercent| < a.condition.value := by
  unfold checkPriceAlert
  simp [hact, htrig, hsym, hty, hop]
  split <;> simp_all

/-- Witness for C10: the sample rule (threshold 3, operator `less_than`)
fires on a tick whose percent change is -1. -/
theorem percent_change_less_than_mode_witness :
    pctChangeAlert.isActive = true
      ∧ pctChangeAlert.isTriggered = false
      ∧ pctChangeAlert.symbol = smallMoveTick.symbol
      ∧ pctChangeAlert.type = PriceAlertType.percent_change
      ∧ pctChangeAlert.condition.operator = ConditionOperator.less_than
      ∧ ((checkPriceAlert pctChangeAlert smallMoveTick nsGranted 11).1 = true
          ↔ |smallMoveTick.changePercent| < pctChangeAlert.condition.value) := by
  refine ⟨rfl, rfl, rfl, rfl, rfl, ?_⟩
  exact percent_change_less_than_mode pctChangeAlert smallMoveTick nsGranted 11
    rfl rfl rfl rfl rfl

/-- Claim C6 is false on the code: a single evaluation call on an active,
untriggered rule whose condition holds returns a rule whose `triggered`
flag has been set by the evaluator itself, and an effect log showing the
evaluator invoked the dispatcher. -/
theorem evaluator_mutates_and_dispatches :
    aboveAlert.isTriggered = false
      ∧ (checkPriceAlert aboveAlert aboveTick nsGranted 7).2.1.isTriggered = true
      ∧ (checkPriceAlert aboveAlert aboveTick nsGranted 7).2.2 ≠ [] := by
  refine ⟨rfl, ?_, ?_⟩
  · norm_num [checkPriceAlert, triggerPriceAlert, aboveAlert, aboveTick, nsGranted,
      showPriceAlert, showNotification, playAlertSound]
  · norm_num [checkPriceAlert, triggerPriceAlert, aboveAlert, aboveTick, nsGranted,
      showPriceAlert, showNotification, playAlertSound]
    exact fun h => List.noConfusion h

/-- Claim C6 amended: evaluation is not a stateless predicate.  A call
that returns false leaves the rule unchanged and emits no effects, but a
call that returns true itself applies the trigger transition (metadata,
`triggered` flag, trigger timestamp) and performs the dispatcher's side
effects; the Store only re-applies the same transition to its copy. -/
theorem checkPriceAlert_shape (a : PriceAlert) (pd : PriceData)
    (ns : NotifServiceState) (now : ℕ) :
    checkPriceAlert a pd ns now = (false, a, [])
      ∨ checkPriceAlert a pd ns now = (true, triggerPriceAlert a pd ns now) := by
  unfold checkPriceAlert
  repeat' split
  all_goals simp
  all_goals first | exact le_or_lt _ _ | exact lt_or_le _ _

theorem checkTechnicalAlert_shape (ta : TechnicalAlert) (td : TechnicalData)
    (ns : NotifServiceState) (now : ℕ) :
    checkTechnicalAlert ta td ns now = (false, ta, [])
      ∨ checkTechnicalAlert ta td ns now = (true, triggerTechnicalAlert ta ns now) := by
  unfold checkTechnicalAlert
  repeat' split
  all_goals simp
  all_goals first | exact le_or_lt _ _ | exact lt_or_le _ _

theorem evaluator_effect_contract (a : PriceAlert) (pd : PriceData)
    (ta : TechnicalAlert) (td : TechnicalData) (ns : NotifServiceState) (now : ℕ) :
    ((checkPriceAlert a pd ns now).1 = false →
        (checkPriceAlert a pd ns now).2.1 = a
          ∧ (checkPriceAlert a pd ns now).2.2 = [])
      ∧ ((checkPriceAlert a pd ns now).1 = true →
        (checkPriceAlert a pd ns now).2.1 =
            { a with
                metadata := some { currentPrice := pd.price,
                                   triggerPrice := a.condition.value,
                                   percentChange := pd.changePercent }
                isTriggered := true
                triggeredAt := some now }
          ∧ (checkPriceAlert a pd ns now).2.2 = (triggerPriceAlert a pd ns now).2)
      ∧ ((checkTechnicalAlert ta td ns now).1 = false →
        (checkTechnicalAlert ta td ns now).2.1 = ta
          ∧ (checkTechnicalAlert ta td ns now).2.2 = [])
      ∧ ((checkTechnicalAlert ta td ns now).1 = true →
        (checkTechnicalAlert ta td ns now).2.1 =
            { ta with isTriggered := true, triggeredAt := some now }
          ∧ (checkTechnicalAlert ta td ns now).2.2
              = (triggerTechnicalAlert ta ns now).2) := by
  rcases checkPriceAlert_shape a pd ns now with h | h <;>
    rcases checkTechnicalAlert_shape ta td ns now with h2 | h2 <;>
    rw [h, h2] <;>
    exact ⟨by intro hc; first | exact ⟨rfl, rfl⟩ | exact Bool.noConfusion hc,
           by intro hc; first | exact ⟨rfl, rfl⟩ | exact Bool.noConfusion hc,
           by intro hc; first | exact ⟨rfl, rfl⟩ | exact Bool.noConfusion hc,
           by intro hc; first | exact ⟨rfl, rfl⟩ | exact Bool.noConfusion hc⟩

/-- Witness for C6 amended, at the concrete firing rule: the returned rule
equals the explicitly trigger-transitioned rule and the effect log equals
the dispatcher's output. -/
theorem evaluator_effect_contract_witness :
    (checkPriceAlert aboveAlert aboveTick nsGranted 7).2.1 =
        { aboveAlert with
            metadata := some { currentPrice := aboveTick.price,
                               triggerPrice := aboveAlert.condition.value,
                               percentChange := aboveTick.changePercent }
            isTriggered := true
            triggeredAt := some 7 }
      ∧ (checkPriceAlert aboveAlert aboveTick nsGranted 7).2.2
          = (triggerPriceAlert aboveAlert aboveTick nsGranted 7).2 := by
  refine (evaluator_effect_contract aboveAlert aboveTick triggeredTechAlert
    overboughtSnapshot nsGranted 7).2.1 ?_
  norm_num [checkPriceAlert, aboveAlert, aboveTick]

/-- Claim C3 is false on the code: after `updateSettings` turns the global
browser-notifications toggle off, a firing rule whose own browser flag is
on still performs the visual notification — the dispatcher never consults
the global toggle. -/
theorem visual_ignores_global_toggle :
    (updateSettings emptyNotifState nsGranted browserOffPatch).1.settings.browserNotifications
        = false
      ∧ hasVisual
          (checkPriceAlert aboveAlert aboveTick
            (updateSettings emptyNotifState nsGranted browserOffPatch).2 0).2.2 = true := by
  constructor
  · rfl
  · norm_num [checkPriceAlert, triggerPriceAlert, aboveAlert, aboveTick, nsGranted,
      updateSettings, emptyNotifState, browserOffPatch, showPriceAlert, showNotification,
      playAlertSound, hasVisual, isVisualEffect]

/-- Claim C3 amended: the visual side effect of a price-rule firing is
performed iff the rule's own browser flag is set and the notification
service's permission is granted — the global browser-notifications
setting is not consulted; a sound is played iff the service's sound
toggle (and audio) is on and either the rule's sound flag is set or the
rule is a price-level rule whose browser path plays its own sound; only
the `soundEnabled` field of `updateSettings` propagates to the service,
immediately, while the service's permission state is untouched. -/
theorem channel_gating_contract (a : PriceAlert) (pd : PriceData)
    (ns : NotifServiceState) (now : ℕ) (s : AlertState) (p : SettingsPatch) (b : Bool) :
    hasVisual (triggerPriceAlert a pd ns now).2
        = (a.notificationSettings.browser && decide (ns.permission = Permission.granted))
      ∧ hasSound (triggerPriceAlert a pd ns now).2
        = (ns.soundEnabled && ns.audioAvailable
            && (a.notificationSettings.sound
                || (a.notificationSettings.browser && isPriceLevelType a.type)))
      ∧ (p.soundEnabled = some b → (updateSettings s ns p).2.soundEnabled = b)
      ∧ (updateSettings s ns p).2.permission = ns.permission
      ∧ (updateSettings s ns p).1.settings.soundEnabled
          = p.soundEnabled.getD s.settings.soundEnabled := by
  refine ⟨?_, ?_, ?_, ?_, ?_⟩
  · unfold triggerPriceAlert
    cases hty : a.type <;>
      cases hb : a.notificationSettings.browser <;>
      cases hs : a.notificationSettings.sound <;>
      simp [showPriceAlert, hasVisual_append, hasVisual_showNotification,
        hasVisual_playAlertSound, hasVisual_nil, isPriceLevelType]
  · unfold triggerPriceAlert
    cases hty : a.type <;>
      cases hb : a.notificationSettings.browser <;>
      cases hs : a.notificationSettings.sound <;>
      cases hse : ns.soundEnabled <;> cases hae : ns.audioAvailable <;>
      simp [showPriceAlert, hasSound_append, hasSound_showNotification,
        hasSound_playAlertSound, hasSound_nil, isPriceLevelType, hse, hae]
  · intro hp
    simp [updateSettings, hp]
  · unfold updateSettings
    cases p.soundEnabled <;> simp
  · simp [updateSettings]

/-- Witness for C3 amended at concrete inputs: the rule-level browser flag
and granted permission yield a visual effect, a `soundEnabled := false`
patch reaches the service immediately, and permission is untouched. -/
theorem channel_gating_contract_witness :
    hasVisual (triggerPriceAlert aboveAlert aboveTick nsGranted 3).2
        = (aboveAlert.notificationSettings.browser
            && decide (nsGranted.permission = Permission.granted))
      ∧ (updateSettings emptyNotifState nsGranted
          { browserNotifications := none, soundEnabled := some false
            emailNotifications := none, maxNotifications := none }).2.soundEnabled = false
      ∧ (updateSettings emptyNotifState nsGranted
          { browserNotifications := none, soundEnabled := some false
            emailNotifications := none, maxNotifications := none }).2.permission
          = nsGranted.permission := by
  refine ⟨?_, ?_, ?_⟩
  · exact (channel_gating_contract aboveAlert aboveTick nsGranted 3 emptyNotifState
      browserOffPatch false).1
  · exact (channel_gating_contract aboveAlert aboveTick nsGranted 3 emptyNotifState
      { browserNotifications := none, soundEnabled := some false
        emailNotifications := none, maxNotifications := none } false).2.2.1 rfl
  · exact (channel_gating_contract aboveAlert aboveTick nsGranted 3 emptyNotifState
      { browserNotifications := none, soundEnabled := some false
        emailNotifications := none, maxNotifications := none } false).2.2.2.1

/-- Claim C5 is false on the code: the manual test-alert operation also
adds a notification, but prepends without enforcing the cap — from a full
list of 2 with `maxNotifications = 2` it produces a list of length 3. -/
theorem test_alert_exceeds_cap :
    twoNotifState.settings.maxNotifications = 2
      ∧ twoNotifState.notifications.length = 2
      ∧ (testAlertAdd twoNotifState (sampleNotification 3)).notifications.length = 3 := by
  exact ⟨rfl, rfl, rfl⟩

/-- Claim C5 amended: the rule-firing path does keep the notification
list newest-first and capped at `maxNotifications` (for any cap ≥ 1),
evicting the oldest entries, and firing three rules with cap 2 leaves
exactly the two newest notifications; the test-alert operation, however,
prepends without applying the cap. -/
theorem notification_cap_contract (s : AlertState) (n n1 n2 n3 : AlertNotification)
    (h : 1 ≤ s.settings.maxNotifications) :
    (addNotificationOnFire s n).notifications.head? = some n
      ∧ (addNotificationOnFire s n).notifications.length
          = min (s.notifications.length + 1) s.settings.maxNotifications
      ∧ (addNotificationOnFire s n).notifications
          = n :: s.notifications.take (s.settings.maxNotifications - 1)
      ∧ (s.notifications = [] → s.settings.maxNotifications = 2 →
          (addNotificationOnFire (addNotificationOnFire
            (addNotificationOnFire s n1) n2) n3).notifications = [n3, n2]) := by
  refine ⟨rfl, ?_, rfl, ?_⟩
  · simp only [addNotificationOnFire, List.length_cons, List.length_take]
    omega
  · intro h0 h2
    simp [addNotificationOnFire, h0, h2]

/-- Witness for C5 amended at a concrete state with cap 2 holding two
notifications: the firing path keeps the length at the cap and evicts the
oldest, and the three-fire scenario from the empty state leaves exactly
the two newest. -/
theorem notification_cap_contract_witness :
    (1 ≤ twoNotifState.settings.maxNotifications)
      ∧ (addNotificationOnFire twoNotifState (sampleNotification 3)).notifications.length
          = min (twoNotifState.notifications.length + 1)
              twoNotifState.settings.maxNotifications
      ∧ (addNotificationOnFire (addNotificationOnFire (addNotificationOnFire
            emptyNotifState (sampleNotification 1)) (sampleNotification 2))
            (sampleNotification 3)).notifications
          = [sampleNotification 3, sampleNotification 2] := by
  refine ⟨by decide, ?_, ?_⟩
  · exact (notification_cap_contract twoNotifState (sampleNotification 3)
      (sampleNotification 1) (sampleNotification 2) (sampleNotification 3)
      (by decide)).2.1
  · exact (notification_cap_contract emptyNotifState (sampleNotification 0)
      (sampleNotification 1) (sampleNotification 2) (sampleNotification 3)
      (by decide)).2.2.2 rfl rfl

/-! ## Helper lemmas for the indicator proofs -/

theorem rangeMap_getD {α : Type} (f : ℕ → α) (n i : ℕ) (d : α) (h : i < n) :
    ((List.range n).map f).getD i d = f i := by
  simp [List.getD_eq_getElem?_getD, List.getElem?_map, List.getElem?_range, h]

theorem getD_replicate_of_lt (c : ℚ) (n j : ℕ) (h : j < n) :
    (List.replicate n c).getD j 0 = c := by
  simp [List.getD_eq_getElem?_getD, List.getElem?_replicate, h]

theorem take_sum_eq_range_sum (l : List ℚ) :
    ∀ p : ℕ, p ≤ l.length →
      (l.take p).sum = ∑ j ∈ Finset.range p, l.getD j 0 := by
  intro p
  induction p with
  | zero => simp
  | succ p ih =>
    intro h
    have hp : p < l.length := h
    rw [List.take_succ, List.sum_append, ih (Nat.le_of_succ_le h),
      Finset.sum_range_succ, List.getElem?_eq_getElem hp]
    simp [List.getD_eq_getElem?_getD, List.getElem?_eq_getElem hp]

theorem getD_drop_zero (l : List ℚ) (a j : ℕ) :
    (l.drop a).getD j 0 = l.getD (a + j) 0 := by
  simp [List.getD_eq_getElem?_getD, List.getElem?_drop]

theorem emaAt_replicate (c : ℚ) (period n : ℕ) :
    ∀ i, i < n → emaAt (List.replicate n c) period i = some c := by
  intro i
  induction i with
  | zero =>
    intro h
    unfold emaAt
    rw [getD_replicate_of_lt c n 0 h]
  | succ i ih =>
    intro h
    unfold emaAt
    split
    · rw [List.take_replicate, List.sum_replicate]
      have hmin : min (i + 2) n = i + 2 := by omega
      rw [hmin, nsmul_eq_mul]
      have hne : ((i + 2 : ℕ) : ℚ) ≠ 0 := by positivity
      rw [mul_div_cancel_left₀ c hne]
    · rw [ih (by omega)]
      rw [getD_replicate_of_lt c n (i + 1) h]
      ring_nf

/-- Claim C8 (confirmed): for every constant series and every period ≥ 1,
`calculateEMA` returns the same constant at every position — the raw
seed, the running-SMA seeds and the recurrence all preserve a constant
input. -/
theorem ema_constant_input (c : ℚ) (n period : ℕ) (_hp : 1 ≤ period) :
    calculateEMA (List.replicate n c) period = List.replicate n (some c) := by
  rw [List.eq_replicate_iff]
  constructor
  · simp [calculateEMA]
  · intro b hb
    rcases List.mem_map.1 hb with ⟨i, hi, rfl⟩
    have hi2 : i < n := by simpa using List.mem_range.1 hi
    exact emaAt_replicate c period n i hi2

/-- Witness for C8 at the spec's concrete scenario:
`EMA([10,10,10,10,10], 3) = [10,10,10,10,10]`. -/
theorem ema_constant_input_witness :
    1 ≤ 3
      ∧ calculateEMA [10, 10, 10, 10, 10] 3
          = [some 10, some 10, some 10, some 10, some 10] := by
  refine ⟨by decide, ?_⟩
  exact ema_constant_input 10 5 3 (by decide)

/-- Claim C9 (confirmed): for `period ≥ 1` and a series at least `period`
long, `calculateSMA` is the no-value marker at positions `0..period-2`
and the arithmetic mean of the trailing `period` values at every
position `i ≥ period-1`; consequently the SMA of a constant series is
that constant at every defined position. -/
theorem sma_windows (data : List ℚ) (period : ℕ) (h1 : 1 ≤ period)
    (h2 : period ≤ data.length) :
    (∀ i, i < period - 1 → (calculateSMA data period).getD i none = none)
      ∧ (∀ i, period - 1 ≤ i → i < data.length →
          (calculateSMA data period).getD i none
            = some ((∑ j ∈ Finset.range period, data.getD (i + 1 - period + j) 0)
                / (period : ℚ)))
      ∧ (∀ (c : ℚ) (m i : ℕ), period - 1 ≤ i → i < m →
          (calculateSMA (List.replicate m c) period).getD i none = some c) := by
  refine ⟨?_, ?_, ?_⟩
  · intro i hi
    have hilen : i < data.length := by omega
    rw [calculateSMA, rangeMap_getD _ _ _ _ hilen, if_pos hi]
  · intro i hlow hilen
    rw [calculateSMA, rangeMap_getD _ _ _ _ hilen, if_neg (by omega)]
    have hlen : period ≤ (data.drop (i + 1 - period)).length := by
      rw [List.length_drop]
      omega
    rw [take_sum_eq_range_sum _ period hlen]
    simp only [getD_drop_zero]
  · intro c m i hlow him
    have hilen : i < (List.replicate m c).length := by
      rw [List.length_replicate]; exact him
    rw [calculateSMA, rangeMap_getD _ _ _ _ hilen, if_neg (by omega)]
    rw [List.drop_replicate, List.take_replicate, List.sum_replicate]
    have hmin : min period (m - (i + 1 - period)) = period := by omega
    rw [hmin, nsmul_eq_mul]
    have hne : ((period : ℕ) : ℚ) ≠ 0 := by
      have : 0 < period := by omega
      positivity
    rw [mul_div_cancel_left₀ c hne]

/-- Witness for C9 at a concrete series and period. -/
theorem sma_windows_witness :
    (1 ≤ 2 ∧ 2 ≤ ([1, 2, 3, 4] : List ℚ).length)
      ∧ (calculateSMA [1, 2, 3, 4] 2).getD 0 none = none
      ∧ (calculateSMA [1, 2, 3, 4] 2).getD 2 none
          = some ((∑ j ∈ Finset.range 2, ([1, 2, 3, 4] : List ℚ).getD (2 + 1 - 2 + j) 0)
              / (2 : ℚ))
      ∧ (calculateSMA (List.replicate 3 (7 : ℚ)) 2).getD 1 none = some 7 := by
  refine ⟨⟨by decide, by decide⟩, ?_, ?_, ?_⟩
  · exact (sma_windows [1, 2, 3, 4] 2 (by decide) (by decide)).1 0 (by decide)
  · exact (sma_windows [1, 2, 3, 4] 2 (by decide) (by decide)).2.1 2 (by decide) (by decide)
  · exact (sma_windows [1, 2, 3, 4] 2 (by decide) (by decide)).2.2 7 3 1 (by decide) (by decide)

/-- Claim C4 is false on the code: on the constant close series `[1, 1]`
the macd component at index 0 is defined (0), and the spec's re-aligned
signal EMA there is 0, yet the code's signal component is the no-value
marker — the alignment step's `|| null` coerces the numeric value 0 to
no-value. -/
theorem macd_zero_signal_dropped :
    ((calculateMACD [1, 1] 12 26 9).getD 0 emptyMacdEntry).macd = some 0
      ∧ ((calculateMACD [1, 1] 12 26 9).getD 0 emptyMacdEntry).signal = none
      ∧ specSignalAt [1, 1] 12 26 9 0 = some 0 := by
  refine ⟨?_, ?_, ?_⟩ <;>
    norm_num [calculateMACD, macdLine, calculateEMA, emaAt, signalLineOf,
      alignedSignalAt, specSignalAt, jsOrNull, emptyMacdEntry,
      List.range_succ, List.range_zero, List.filterMap_cons, List.filterMap_nil]

/-- Claim C4 amended: at every index the code's signal component equals
the spec's re-aligned signal EMA with values that are exactly 0 coerced
to the no-value marker (`|| null`); in particular it is no-value wherever
macd is no-value, and the histogram is macd minus signal exactly where
both are defined. -/
theorem macd_signal_alignment (data : List ℚ) (fastP slowP sigP i : ℕ) :
    ((calculateMACD data fastP slowP sigP).getD i emptyMacdEntry).signal
        = jsOrNull (specSignalAt data fastP slowP sigP i)
      ∧ ((macdLine data fastP slowP).getD i none = none →
          ((calculateMACD data fastP slowP sigP).getD i emptyMacdEntry).signal = none)
      ∧ (((calculateMACD data fastP slowP sigP).getD i emptyMacdEntry).histogram
          = match ((calculateMACD data fastP slowP sigP).getD i emptyMacdEntry).macd,
                  ((calculateMACD data fastP slowP sigP).getD i emptyMacdEntry).signal with
            | some mv, some sv => some (mv - sv)
            | _, _ => none) := by
  by_cases hi : i < data.length
  · rw [calculateMACD, rangeMap_getD _ _ _ _ hi]
    refine ⟨?_, ?_, rfl⟩
    · rw [alignedSignalAt, specSignalAt]
      cases h : (macdLine data fastP slowP).getD i none <;> simp [jsOrNull]
    · intro h
      rw [alignedSignalAt, h]
  · have hlen : (calculateMACD data fastP slowP sigP).length ≤ i := by
      rw [calculateMACD, List.length_map, List.length_range]
      omega
    have hmlen : (macdLine data fastP slowP).length ≤ i := by
      rw [macdLine, List.length_map, List.length_range]
      omega
    rw [List.getD_eq_getElem?_getD, List.getElem?_eq_none hlen]
    rw [specSignalAt, List.getD_eq_getElem?_getD, List.getElem?_eq_none hmlen]
    exact ⟨rfl, fun _ => rfl, rfl⟩

/-- Witness for C4 amended at the concrete series `[1, 1]` and an
out-of-range index whose macd entry is no-value. -/
theorem macd_signal_alignment_witness :
    ((calculateMACD [1, 1] 12 26 9).getD 1 emptyMacdEntry).signal
        = jsOrNull (specSignalAt [1, 1] 12 26 9 1)
      ∧ (macdLine [1, 1] 12 26).getD 5 none = none
      ∧ ((calculateMACD [1, 1] 12 26 9).getD 5 emptyMacdEntry).signal = none := by
  refine ⟨(macd_signal_alignment [1, 1] 12 26 9 1).1, ?_, ?_⟩
  · norm_num [macdLine, calculateEMA, emaAt, List.range_succ, List.range_zero]
  · refine (macd_signal_alignment [1, 1] 12 26 9 5).2.1 ?_
    norm_num [macdLine, calculateEMA, emaAt, List.range_succ, List.range_zero]

/-- Claim C7 is false on the code: for the returns series `[0, 1/5]`
(risk-free rate 0) the Sharpe ratio the code produces is not the
`sqrt(252)`-annualized ratio of mean excess return to standard deviation
— the `sqrt(252)` factors in numerator and denominator cancel, leaving
the un-annualized ratio. -/
theorem sharpe_not_annualized :
    calculateSharpeRatio [0, 1/5] 0
      ≠ JsNumber.val (Real.sqrt 252
          * (jsMean (excessReturns [0, 1/5] 0) / jsStdDev (excessReturns [0, 1/5] 0))) := by
  have hex : excessReturns [0, 1/5] 0 = [0, 1/5] := by
    norm_num [excessReturns]
  have hm : jsMean [(0 : ℝ), 1/5] = 1/10 := by
    norm_num [jsMean]
  have hsd : jsStdDev [(0 : ℝ), 1/5] = Real.sqrt (1/50) := by
    norm_num [jsStdDev, jsMean]
  have hsdpos : (0 : ℝ) < Real.sqrt (1/50) := Real.sqrt_pos.mpr (by norm_num)
  have hcode : calculateSharpeRatio [0, 1/5] 0
      = JsNumber.val ((1/10) / Real.sqrt (1/50)) := by
    have hlen : ¬ ([(0 : ℝ), 1/5].length = 0) := by norm_num
    have hsdne : ¬ (jsStdDev (excessReturns [0, 1/5] 0) = 0) := by
      rw [hex, hsd]
      exact ne_of_gt hsdpos
    simp only [calculateSharpeRatio, hlen, if_false, hsdne, ite_false, hex, hm, hsd]
    have hs : Real.sqrt 252 ≠ 0 := by positivity
    rw [mul_div_mul_right _ _ hs, if_neg (ne_of_gt hsdpos)]
  rw [hcode, hex, hm, hsd]
  intro hcontr
  have heq : (1/10) / Real.sqrt (1/50)
      = Real.sqrt 252 * ((1/10) / Real.sqrt (1/50)) := by
    injection hcontr
  have hne : (1/10) / Real.sqrt (1/50) ≠ 0 := by positivity
  have heq2 : 1 * ((1/10) / Real.sqrt (1/50))
      = Real.sqrt 252 * ((1/10) / Real.sqrt (1/50)) := by
    rw [one_mul]
    exact heq
  have h252 : (1 : ℝ) = Real.sqrt 252 := mul_right_cancel₀ hne heq2
  have hlt : (1 : ℝ) < Real.sqrt 252 := by
    have h1 : Real.sqrt 1 < Real.sqrt 252 := Real.sqrt_lt_sqrt (by norm_num) (by norm_num)
    simpa using h1
  exact absurd h252 (ne_of_lt hlt)

/-- Claim C7 amended: for every nonempty returns series, the Sharpe
(resp. Sortino) ratio equals the mean per-period excess return divided by
the sample standard deviation (resp. downside deviation), with no net
annualization — the `sqrt(252)` factors cancel; when the denominator is
exactly zero (or, for Sortino, no negative excess returns exist) the
result is the +infinity sentinel when the mean excess return is positive
and 0 otherwise, and both functions are total. -/
theorem ratio_denominator_contract (returns : List ℝ) (rfr : ℝ) (h : returns ≠ []) :
    (jsStdDev (excessReturns returns rfr) ≠ 0 →
        calculateSharpeRatio returns rfr
          = JsNumber.val (jsMean (excessReturns returns rfr)
              / jsStdDev (excessReturns returns rfr)))
      ∧ (jsStdDev (excessReturns returns rfr) = 0 →
          0 < jsMean (excessReturns returns rfr) →
          calculateSharpeRatio returns rfr = JsNumber.posInf)
      ∧ (jsStdDev (excessReturns returns rfr) = 0 →
          ¬ 0 < jsMean (excessReturns returns rfr) →
          calculateSharpeRatio returns rfr = JsNumber.val 0)
      ∧ (negativeExcessReturns returns rfr = [] →
          0 < jsMean (excessReturns returns rfr) →
          calculateSortinoRatio returns rfr = JsNumber.posInf)
      ∧ (negativeExcessReturns returns rfr = [] →
          ¬ 0 < jsMean (excessReturns returns rfr) →
          calculateSortinoRatio returns rfr = JsNumber.val 0)
      ∧ (negativeExcessReturns returns rfr ≠ [] →
          calculateSortinoRatio returns rfr
            = JsNumber.val (jsMean (excessReturns returns rfr)
                / Real.sqrt (((negativeExcessReturns returns rfr).map (fun r => r * r)).sum
                    / ((negativeExcessReturns returns rfr).length : ℝ)))) := by
  have hlen : ¬ (returns.length = 0) := by
    simpa [List.length_eq_zero] using h
  have hs : Real.sqrt 252 ≠ 0 := by positivity
  refine ⟨?_, ?_, ?_, ?_, ?_, ?_⟩
  · intro hsdne
    simp only [calculateSharpeRatio, hlen, if_false, hsdne, ite_false]
    rw [mul_div_mul_right _ _ hs]
  · intro hsd0 hm
    simp [calculateSharpeRatio, hlen, hsd0, hm]
  · intro hsd0 hm
    simp [calculateSharpeRatio, hlen, hsd0, hm]
  · intro hneg hm
    simp [calculateSortinoRatio, hlen, hneg, hm]
  · intro hneg hm
    simp [calculateSortinoRatio, hlen, hneg, hm]
  · intro hneg
    have hlen2 : ¬ ((negativeExcessReturns returns rfr).length = 0) := by
      simpa [List.length_eq_zero] using hneg
    have hall : ∀ x ∈ (negativeExcessReturns returns rfr).map (fun r => r * r), 0 < x := by
      intro x hx
      rcases List.mem_map.1 hx with ⟨r, hr, rfl⟩
      simp only [negativeExcessReturns] at hr
      have hrneg : r < 0 := of_decide_eq_true (List.mem_filter.1 hr).2
      exact mul_pos_of_neg_of_neg hrneg hrneg
    have hmapne : (negativeExcessReturns returns rfr).map (fun r => r * r) ≠ [] := by
      simpa using hneg
    have hsum : 0 < ((negativeExcessReturns returns rfr).map (fun r => r * r)).sum :=
      List.sum_pos _ hall hmapne
    have hcount : (0 : ℝ) < ((negativeExcessReturns returns rfr).length : ℝ) := by
      exact_mod_cast List.length_pos.mpr hneg
    have hddpos : 0 < Real.sqrt
        (((negativeExcessReturns returns rfr).map (fun r => r * r)).sum
          / ((negativeExcessReturns returns rfr).length : ℝ)) :=
      Real.sqrt_pos.mpr (div_pos hsum hcount)
    simp only [calculateSortinoRatio, hlen, if_false, hlen2, ite_false]
    rw [if_neg (ne_of_gt hddpos), mul_div_mul_right _ _ hs]

/-- Witness for C7 amended at the singleton returns series `[1]` with
risk-free rate 0: the standard deviation guard is hit, the mean excess
return is positive, and both ratios evaluate to the +infinity sentinel. -/
theorem ratio_denominator_contract_witness :
    ([(1 : ℝ)] ≠ [])
      ∧ jsStdDev (excessReturns [1] 0) = 0
      ∧ 0 < jsMean (excessReturns [1] 0)
      ∧ negativeExcessReturns [1] 0 = []
      ∧ calculateSharpeRatio [1] 0 = JsNumber.posInf
      ∧ calculateSortinoRatio [1] 0 = JsNumber.posInf := by
  have h : [(1 : ℝ)] ≠ [] := List.cons_ne_nil 1 []
  have hex : excessReturns [1] 0 = [1] := by
    norm_num [excessReturns]
  have hsd0 : jsStdDev (excessReturns [1] 0) = 0 := by
    rw [hex]
    norm_num [jsStdDev]
  have hm : 0 < jsMean (excessReturns [1] 0) := by
    rw [hex]
    norm_num [jsMean]
  have hneg : negativeExcessReturns [1] 0 = [] := by
    rw [negativeExcessReturns, hex]
    simp only [List.filter_cons, List.filter_nil]
    rw [decide_eq_false (by norm_num : ¬ ((1 : ℝ) < 0))]
    simp
  refine ⟨h, hsd0, hm, hneg, ?_, ?_⟩
  · exact (ratio_denominator_contract [1] 0 h).2.1 hsd0 hm
  · exact (ratio_denominator_contract [1] 0 h).2.2.2.1 hneg hm

end StockVisualizer
